import Mathlib

/-!
Verification of the `speed.py` module of FEARLESS-MD-V1.

The pure parts of the source (the haversine `distance` function, the
Python-version feature flags, `FakeShutdownEvent` and `event_is_set`) are
embedded directly.  The concurrent measurement engine (server selection,
transfer workers, the timed pool and the speed calculator) is not present in
the available source excerpt, which ends before those definitions; those
components are modelled from the specification, as marked on each definition.
-/

/-- Degrees-to-radians conversion, embedding Python's math.radians. -/
noncomputable def radians (x : ℝ) : ℝ := x * (Real.pi / 180)

/-- Two-argument arctangent, embedding Python's math.atan2 via the complex
argument with atan2 y x equal to the argument of the complex number x + i y. -/
noncomputable def atan2 (y x : ℝ) : ℝ := Complex.arg ⟨x, y⟩

/-- Haversine distance in km between two lat-lon pairs, embedding the source
function distance at lines 656-672 of speed.py. -/
noncomputable def distance (origin destination : ℝ × ℝ) : ℝ :=
  let lat1 := origin.1
  let lon1 := origin.2
  let lat2 := destination.1
  let lon2 := destination.2
  let radius : ℝ := 6371
  let dlat := radians (lat2 - lat1)
  let dlon := radians (lon2 - lon1)
  let a := Real.sin (dlat / 2) * Real.sin (dlat / 2) +
    Real.cos (radians lat1) * Real.cos (radians lat2) * Real.sin (dlon / 2) *
    Real.sin (dlon / 2)
  let c := 2 * atan2 (Real.sqrt a) (Real.sqrt (1 - a))
  let d := radius * c
  d

/-- The haversine great-circle formula exactly as the specification words it:
6371 * 2 * atan2(sqrt a, sqrt (1 - a)) with
a = sin(dlat/2)^2 + cos(lat1) * cos(lat2) * sin(dlon/2)^2 over the
radian-converted inputs.  Stated from the spec for comparison with the
source-derived distance. -/
noncomputable def haversineSpec (origin destination : ℝ × ℝ) : ℝ :=
  let lat1 := radians origin.1
  let lon1 := radians origin.2
  let lat2 := radians destination.1
  let lon2 := radians destination.2
  let dlat := lat2 - lat1
  let dlon := lon2 - lon1
  let a := Real.sin (dlat / 2) ^ 2 +
    Real.cos lat1 * Real.cos lat2 * Real.sin (dlon / 2) ^ 2
  6371 * 2 * atan2 (Real.sqrt a) (Real.sqrt (1 - a))

/-- An event object as seen by event_is_set (lines 299-303 of speed.py): it may
or may not expose an is_set method and an isSet method; a missing method is
Python's AttributeError, modelled as none. -/
structure Event where
  set_query : Option (Unit → Bool)
  setQuery : Option (Unit → Bool)

/-- Embedding of event_is_set (lines 299-303 of speed.py): call is_set, and on
AttributeError fall back to isSet; none means both lookups failed. -/
def event_is_set (e : Event) : Option Bool :=
  match e.set_query with
  | some f => some (f ())
  | none =>
    match e.setQuery with
    | some f => some (f ())
    | none => none

/-- Embedding of FakeShutdownEvent (lines 42-52 of speed.py): a class faking
threading.Event whose isSet method always returns False. -/
structure FakeShutdownEvent where

/-- FakeShutdownEvent.isSet, the dummy static method that always returns false. -/
def FakeShutdownEvent.isSet (_ : FakeShutdownEvent) : Bool := false

/-- FakeShutdownEvent.is_set, the alias bound to isSet at line 52 of speed.py. -/
def FakeShutdownEvent.is_set : FakeShutdownEvent → Bool := FakeShutdownEvent.isSet

/-- View of a FakeShutdownEvent as an Event: both method lookups succeed and
dispatch to the corresponding methods of the class. -/
def FakeShutdownEvent.toEvent (e : FakeShutdownEvent) : Event :=
  { set_query := some fun _ => e.is_set
    setQuery := some fun _ => e.isSet }

/-- Python tuple comparison a >= b on pairs, lexicographic, as used by the
version checks sys.version_info[:2] >= (x, y) at lines 58-61 of speed.py. -/
def tupleGe (a b : Nat × Nat) : Bool :=
  decide (b.1 < a.1) || (a.1 == b.1 && decide (b.2 ≤ a.2))

/-- Embedding of PY25PLUS (line 58): sys.version_info[:2] >= (1, 5),
parametrised by the interpreter version pair. -/
def PY25PLUS (v : Nat × Nat) : Bool := tupleGe v (1, 5)

/-- Embedding of PY26PLUS (line 59): sys.version_info[:2] >= (1, 6). -/
def PY26PLUS (v : Nat × Nat) : Bool := tupleGe v (1, 6)

/-- Embedding of PY32PLUS (line 60): sys.version_info[:2] >= (1, 0). -/
def PY32PLUS (v : Nat × Nat) : Bool := tupleGe v (1, 0)

/-- Embedding of PY310PLUS (line 61): sys.version_info[:2] >= (2, 10). -/
def PY310PLUS (v : Nat × Nat) : Bool := tupleGe v (2, 10)

/-- Modelled from the spec: a candidate server as seen by ServerSelector, whose
code is absent from the available source excerpt.  Identity is the numeric
server id; distanceKm is the derived distance, computed once and cached. -/
structure Server where
  ident : Nat
  distanceKm : ℚ
deriving DecidableEq

/-- Modelled from the spec: an explicit server-id filter value, which is either
a valid integer id or a value that is not an integer. -/
inductive IdFilter where
  | intVal (n : Nat)
  | nonInt
deriving DecidableEq

/-- Modelled from the spec: the distinct failure kinds of server selection:
empty input list, non-integer id filter (InvalidServerIDType), id filter with
no match (NoMatchedServers), and every candidate disqualified
(SpeedtestBestServerFailure). -/
inductive SelectError where
  | emptyServerList
  | invalidServerIDType
  | noMatchedServers
  | speedtestBestServerFailure
deriving DecidableEq

/-- Modelled from the spec: the average over only the successful probes of one
candidate; none when no probe succeeded, in which case the candidate is
disqualified. -/
def successfulAvg (probes : List (Option ℚ)) : Option ℚ :=
  let succ := probes.filterMap id
  if succ = [] then none else some (succ.sum / (succ.length : ℚ))

/-- Modelled from the spec: the candidate list, sorted ascending by distance. -/
def sortByDistance (servers : List Server) : List Server :=
  List.insertionSort (fun a b => a.distanceKm ≤ b.distanceKm) servers

/-- Modelled from the spec: the closest K candidates of the distance-sorted
server list. -/
def candidatesOf (servers : List Server) (K : Nat) : List Server :=
  (sortByDistance servers).take K

/-- Modelled from the spec: the qualified candidates, paired with the average
of their successful probes; candidates with no successful probe are dropped. -/
def qualifiedOf (probe : Server → List (Option ℚ)) (cands : List Server) :
    List (Server × ℚ) :=
  cands.filterMap fun s => (successfulAvg (probe s)).map fun a => (s, a)

/-- Modelled from the spec: the selection key — lowest successful average
latency first, ties broken by smaller distance. -/
def selKey (p : Server × ℚ) : Lex (ℚ × ℚ) := toLex (p.2, p.1.distanceKm)

/-- Modelled from the spec: pick the qualified candidate minimising the
latency-then-distance key; none when every candidate is disqualified. -/
def pickBest (probe : Server → List (Option ℚ)) (cands : List Server) :
    Option (Server × ℚ) :=
  (qualifiedOf probe cands).argmin selKey

/-- Modelled from the spec: ServerSelector.select.  Checks the non-empty input
invariant, applies the optional id filter (rejecting a non-integer filter
before any probing), takes the K closest candidates, probes them, and picks
the best qualified candidate. -/
def select (servers : List Server) (idFilter : Option IdFilter) (K : Nat)
    (probe : Server → List (Option ℚ)) : Except SelectError Server :=
  match servers with
  | [] => .error .emptyServerList
  | _ :: _ =>
    match idFilter with
    | some .nonInt => .error .invalidServerIDType
    | some (.intVal n) =>
      match servers.filter (fun s => s.ident == n) with
      | [] => .error .noMatchedServers
      | m :: ms =>
        match pickBest probe (candidatesOf (m :: ms) K) with
        | none => .error .speedtestBestServerFailure
        | some p => .ok p.1
    | none =>
      match pickBest probe (candidatesOf servers K) with
      | none => .error .speedtestBestServerFailure
      | some p => .ok p.1

/-- Modelled from the spec: the observable state of one transfer worker — the
index of the next request, the bytes accumulated so far, and the elapsed time
so far (in milliseconds, kept integral). -/
structure WorkerState where
  step : Nat
  bytes : Nat
  elapsed : Nat
deriving DecidableEq

/-- Modelled from the spec: the environment of one test phase — the configured
time and data budgets and, per request index, the shared ShutdownSignal value
the worker observes, the bytes a request would transfer and the time it would
take.  The TransferWorker and TimedWorkerPool code is absent from the
available source excerpt. -/
structure PhaseEnv where
  timeBudget : Nat
  dataBudget : Nat
  shutdownSeen : Nat → Bool
  recvBytes : Nat → Nat
  reqTime : Nat → Nat

/-- Modelled from the spec: the check a worker performs before starting each
new request — stop when the ShutdownSignal is observed true, the time budget
has elapsed, or the data budget has been reached. -/
def stopRequested (env : PhaseEnv) (st : WorkerState) : Bool :=
  env.shutdownSeen st.step || decide (env.timeBudget ≤ st.elapsed) ||
    decide (env.dataBudget ≤ st.bytes)

/-- Modelled from the spec: the state after one completed request. -/
def nextState (env : PhaseEnv) (st : WorkerState) : WorkerState :=
  ⟨st.step + 1, st.bytes + env.recvBytes st.step, st.elapsed + env.reqTime st.step⟩

/-- Modelled from the spec: the transfer loop of one worker, with explicit
fuel bounding the number of iterations; the worker returns its accumulated
state as soon as the stop check fires. -/
def runWorker (env : PhaseEnv) : Nat → WorkerState → WorkerState
  | 0, st => st
  | fuel + 1, st =>
    if stopRequested env st then st else runWorker env fuel (nextState env st)

/-- Modelled from the spec: the list of states from which the worker actually
starts a new request during a run of the transfer loop. -/
def requestStarts (env : PhaseEnv) : Nat → WorkerState → List WorkerState
  | 0, _ => []
  | fuel + 1, st =>
    if stopRequested env st then []
    else st :: requestStarts env fuel (nextState env st)

/-- Modelled from the spec: a Measurement, the product of one test phase. -/
structure Measurement where
  totalBytes : Nat
  elapsedSeconds : ℚ
deriving DecidableEq

/-- Modelled from the spec: the Measurement a pool hands to the calculator,
built from the summed byte counts and the measured start and end wall times of
the phase (never from the configured budget). -/
def mkMeasurement (totalBytes : Nat) (startTime endTime : ℚ) : Measurement :=
  ⟨totalBytes, endTime - startTime⟩

/-- Modelled from the spec: SpeedCalculator.compute, converting a Measurement
into bits per second of measured elapsed wall time. -/
def SpeedCalculator.compute (m : Measurement) : ℚ :=
  (m.totalBytes * 8 : ℚ) / m.elapsedSeconds

/-- Modelled from the spec: the failure mode of a throughput phase invoked
before server selection (SpeedtestMissingBestServer, declared at lines 372-374
of speed.py). -/
inductive PhaseError where
  | missingBestServer
deriving DecidableEq

/-- Modelled from the spec: the caller-visible state of the measurement engine,
holding the selected best server once get_best_server has succeeded. -/
structure EngineState where
  best : Option Server
deriving DecidableEq

/-- Modelled from the spec: run one throughput phase — require a selected best
server first, and only then perform the transfer against it. -/
def runPhase (st : EngineState) (transfer : Server → Nat) : Except PhaseError Nat :=
  match st.best with
  | none => .error .missingBestServer
  | some s => .ok (transfer s)

theorem atan2_zero_one : atan2 0 1 = 0 := by
  unfold atan2
  have h : (⟨1, 0⟩ : ℂ) = 1 := Complex.ext rfl rfl
  rw [h, Complex.arg_one]

theorem radians_zero : radians 0 = 0 := by
  unfold radians; ring

theorem radians_sub (x y : ℝ) : radians (x - y) = radians x - radians y := by
  unfold radians; ring

theorem haversineA_symm (p q r s : ℝ) :
    Real.sin (radians (r - p) / 2) * Real.sin (radians (r - p) / 2) +
      Real.cos (radians p) * Real.cos (radians r) * Real.sin (radians (s - q) / 2) *
      Real.sin (radians (s - q) / 2) =
    Real.sin (radians (p - r) / 2) * Real.sin (radians (p - r) / 2) +
      Real.cos (radians r) * Real.cos (radians p) * Real.sin (radians (q - s) / 2) *
      Real.sin (radians (q - s) / 2) := by
  rw [show radians (r - p) = -(radians (p - r)) from by unfold radians; ring,
    show radians (s - q) = -(radians (q - s)) from by unfold radians; ring,
    neg_div, neg_div, Real.sin_neg, Real.sin_neg]
  ring

theorem haversineA_eq_spec (p q r s : ℝ) :
    Real.sin (radians (r - p) / 2) * Real.sin (radians (r - p) / 2) +
      Real.cos (radians p) * Real.cos (radians r) * Real.sin (radians (s - q) / 2) *
      Real.sin (radians (s - q) / 2) =
    Real.sin ((radians r - radians p) / 2) ^ 2 +
      Real.cos (radians p) * Real.cos (radians r) *
      Real.sin ((radians s - radians q) / 2) ^ 2 := by
  rw [radians_sub, radians_sub]
  ring

/-- C4: the haversine distance of any coordinate pair to itself is zero, and
distance is symmetric in its two arguments. -/
theorem distance_self_eq_zero_and_symm :
    (∀ A : ℝ × ℝ, distance A A = 0) ∧
    (∀ A B : ℝ × ℝ, distance A B = distance B A) := by
  constructor
  · intro A
    simp only [distance, sub_self, radians_zero, zero_div, Real.sin_zero,
      mul_zero, zero_mul, add_zero, zero_add, Real.sqrt_zero, sub_zero,
      Real.sqrt_one, atan2_zero_one]
  · intro A B
    simp only [distance]
    rw [haversineA_symm A.1 A.2 B.1 B.2]

/-- C5: the source distance function computes exactly the haversine formula
stated in the specification, with mean Earth radius 6371 km. -/
theorem distance_eq_haversineSpec : ∀ o d : ℝ × ℝ, distance o d = haversineSpec o d := by
  intro o d
  simp only [distance, haversineSpec]
  rw [haversineA_eq_spec o.1 o.2 d.1 d.2]
  ring

/-- C9: FakeShutdownEvent.isSet and its alias is_set return false on every
call, and event_is_set applied to a FakeShutdownEvent returns false, so a
worker polling such a signal never observes a shutdown request through it. -/
theorem fakeShutdownEvent_never_set :
    (∀ e : FakeShutdownEvent, e.isSet = false) ∧
    (∀ e : FakeShutdownEvent, e.is_set = false) ∧
    (∀ e : FakeShutdownEvent, event_is_set e.toEvent = some false) := by
  refine ⟨fun e => rfl, fun e => rfl, fun e => rfl⟩

/-- C10: the version feature flags compare against thresholds that do not
match their names: 1.5, 1.6, 1.0 and 2.10; hence any interpreter with major
version at least 1 sets PY32PLUS, and any with major version at least 3 sets
all four flags regardless of the minor version. -/
theorem version_flags_thresholds :
    (∀ v : Nat × Nat, PY25PLUS v = tupleGe v (1, 5) ∧ PY26PLUS v = tupleGe v (1, 6) ∧
      PY32PLUS v = tupleGe v (1, 0) ∧ PY310PLUS v = tupleGe v (2, 10)) ∧
    (∀ v : Nat × Nat, 1 ≤ v.1 → PY32PLUS v = true) ∧
    (∀ v : Nat × Nat, 3 ≤ v.1 →
      PY25PLUS v = true ∧ PY26PLUS v = true ∧ PY32PLUS v = true ∧ PY310PLUS v = true) := by
  refine ⟨fun v => ⟨rfl, rfl, rfl, rfl⟩, ?_, ?_⟩
  · intro v h
    simp only [PY32PLUS, tupleGe, Bool.or_eq_true, Bool.and_eq_true,
      decide_eq_true_eq, beq_iff_eq]
    omega
  · intro v h
    refine ⟨?_, ?_, ?_, ?_⟩ <;>
      simp only [PY25PLUS, PY26PLUS, PY32PLUS, PY310PLUS, tupleGe, Bool.or_eq_true,
        Bool.and_eq_true, decide_eq_true_eq, beq_iff_eq] <;> omega

/-- Witness for C10 at the concrete interpreter version (3, 0). -/
theorem version_flags_thresholds_witness :
    (1 ≤ 3 ∧ PY32PLUS (3, 0) = true) ∧
    (3 ≤ 3 ∧ PY25PLUS (3, 0) = true ∧ PY26PLUS (3, 0) = true ∧
      PY32PLUS (3, 0) = true ∧ PY310PLUS (3, 0) = true) :=
  ⟨⟨by decide, version_flags_thresholds.2.1 (3, 0) (by decide)⟩,
   ⟨by decide, version_flags_thresholds.2.2 (3, 0) (by decide)⟩⟩

theorem mem_of_mem_candidatesOf {c : Server} {servers : List Server} {K : Nat}
    (h : c ∈ candidatesOf servers K) : c ∈ servers := by
  unfold candidatesOf sortByDistance at h
  exact (List.perm_insertionSort _ servers).mem_iff.mp (List.take_subset K _ h)

theorem mem_qualifiedOf_iff {probe : Server → List (Option ℚ)} {cands : List Server}
    {s : Server} {a : ℚ} :
    (s, a) ∈ qualifiedOf probe cands ↔ s ∈ cands ∧ successfulAvg (probe s) = some a := by
  unfold qualifiedOf
  rw [List.mem_filterMap]
  constructor
  · rintro ⟨x, hx, hmap⟩
    rw [Option.map_eq_some'] at hmap
    obtain ⟨v, hv, heq⟩ := hmap
    rw [Prod.mk.injEq] at heq
    obtain ⟨rfl, rfl⟩ := heq
    exact ⟨hx, hv⟩
  · rintro ⟨hs, ha⟩
    exact ⟨s, hs, by rw [ha]; rfl⟩

theorem pickBest_spec {probe : Server → List (Option ℚ)} {cands : List Server}
    (hq : ∃ c ∈ cands, (successfulAvg (probe c)).isSome) :
    ∃ s avg, pickBest probe cands = some (s, avg) ∧ s ∈ cands ∧
      successfulAvg (probe s) = some avg ∧
      ∀ c ∈ cands, ∀ a, successfulAvg (probe c) = some a →
        avg < a ∨ (avg = a ∧ s.distanceKm ≤ c.distanceKm) := by
  obtain ⟨c, hc, hsome⟩ := hq
  obtain ⟨a0, ha0⟩ := Option.isSome_iff_exists.mp hsome
  have hmem : (c, a0) ∈ qualifiedOf probe cands := mem_qualifiedOf_iff.mpr ⟨hc, ha0⟩
  have hne : qualifiedOf probe cands ≠ [] := List.ne_nil_of_mem hmem
  cases hpick : (qualifiedOf probe cands).argmin selKey with
  | none => exact absurd (List.argmin_eq_none.mp hpick) hne
  | some m =>
    obtain ⟨s, avg⟩ := m
    have hmm : (s, avg) ∈ qualifiedOf probe cands := List.argmin_mem hpick
    obtain ⟨hs, havg⟩ := mem_qualifiedOf_iff.mp hmm
    refine ⟨s, avg, ?_, hs, havg, ?_⟩
    · unfold pickBest
      rw [hpick]
    · intro d hd b hb
      have hdb : (d, b) ∈ qualifiedOf probe cands := mem_qualifiedOf_iff.mpr ⟨hd, hb⟩
      have hle := List.le_of_mem_argmin hdb hpick
      simp only [selKey] at hle
      rw [Prod.Lex.le_iff] at hle
      simpa using hle

theorem pickBest_eq_none {probe : Server → List (Option ℚ)} {cands : List Server}
    (h : ∀ c ∈ cands, successfulAvg (probe c) = none) :
    pickBest probe cands = none := by
  have hnil : qualifiedOf probe cands = [] := by
    unfold qualifiedOf
    rw [List.filterMap_eq_nil_iff]
    intro c hc
    rw [h c hc]
    rfl
  unfold pickBest
  rw [hnil]
  rfl

/-- C1: whenever at least one candidate has a successful latency probe, select
returns a candidate with at least one successful probe whose successful-probe
average is lowest, ties broken by smaller distance; a fully-failed candidate is
never the returned server. -/
theorem select_returns_best_qualified (servers : List Server) (K : Nat)
    (probe : Server → List (Option ℚ))
    (hq : ∃ c ∈ candidatesOf servers K, (successfulAvg (probe c)).isSome) :
    ∃ s avg, select servers none K probe = .ok s ∧
      s ∈ candidatesOf servers K ∧
      successfulAvg (probe s) = some avg ∧
      ∀ c ∈ candidatesOf servers K, ∀ a, successfulAvg (probe c) = some a →
        avg < a ∨ (avg = a ∧ s.distanceKm ≤ c.distanceKm) := by
  have hne : servers ≠ [] := by
    rintro rfl
    obtain ⟨c, hc, -⟩ := hq
    simp [candidatesOf, sortByDistance] at hc
  obtain ⟨hd, tl, rfl⟩ := List.exists_cons_of_ne_nil hne
  obtain ⟨s, avg, hpick, hs, havg, hmin⟩ := pickBest_spec hq
  refine ⟨s, avg, ?_, hs, havg, hmin⟩
  simp only [select]
  rw [hpick]

/-- Witness for C1: of two concrete servers, the farther one has successful
probes averaging 40 ms, the nearer one only failed probes; select returns the
farther one. -/
theorem select_returns_best_qualified_witness :
    (∃ c ∈ candidatesOf [⟨1, 5⟩, ⟨2, 3⟩] 5,
      (successfulAvg ((fun s : Server =>
        if s.ident == 1 then [some 30, none, some 50] else [none, none, none]) c)).isSome) ∧
    (∃ s avg, select [⟨1, 5⟩, ⟨2, 3⟩] none 5 (fun s : Server =>
        if s.ident == 1 then [some 30, none, some 50] else [none, none, none]) = .ok s ∧
      s ∈ candidatesOf [⟨1, 5⟩, ⟨2, 3⟩] 5 ∧
      successfulAvg ((fun s : Server =>
        if s.ident == 1 then [some 30, none, some 50] else [none, none, none]) s) = some avg ∧
      ∀ c ∈ candidatesOf [⟨1, 5⟩, ⟨2, 3⟩] 5, ∀ a,
        successfulAvg ((fun s : Server =>
          if s.ident == 1 then [some 30, none, some 50] else [none, none, none]) c) = some a →
        avg < a ∨ (avg = a ∧ s.distanceKm ≤ c.distanceKm)) :=
  ⟨by decide,
   select_returns_best_qualified [⟨1, 5⟩, ⟨2, 3⟩] 5
     (fun s : Server =>
       if s.ident == 1 then [some 30, none, some 50] else [none, none, none])
     (by decide)⟩

/-- C2: select fails with the distinct error of each failure case — empty
input list, non-integer id filter (checked independently of any probing), id
filter matching no server, every candidate disqualified — and succeeds when at
least one candidate qualifies. -/
theorem select_error_cases :
    (∀ (f : Option IdFilter) (K : Nat) (probe : Server → List (Option ℚ)),
      select [] f K probe = .error .emptyServerList) ∧
    (∀ (servers : List Server) (K : Nat) (probe probe' : Server → List (Option ℚ)),
      servers ≠ [] →
      select servers (some .nonInt) K probe = .error .invalidServerIDType ∧
      select servers (some .nonInt) K probe = select servers (some .nonInt) K probe') ∧
    (∀ (servers : List Server) (n K : Nat) (probe : Server → List (Option ℚ)),
      servers ≠ [] → (∀ s ∈ servers, s.ident ≠ n) →
      select servers (some (.intVal n)) K probe = .error .noMatchedServers) ∧
    (∀ (servers : List Server) (K : Nat) (probe : Server → List (Option ℚ)),
      servers ≠ [] →
      (∀ c ∈ candidatesOf servers K, successfulAvg (probe c) = none) →
      select servers none K probe = .error .speedtestBestServerFailure) ∧
    (∀ (servers : List Server) (K : Nat) (probe : Server → List (Option ℚ)),
      (∃ c ∈ candidatesOf servers K, (successfulAvg (probe c)).isSome) →
      ∃ s, select servers none K probe = .ok s) := by
  refine ⟨fun f K probe => rfl, ?_, ?_, ?_, ?_⟩
  · intro servers K probe probe' hne
    obtain ⟨hd, tl, rfl⟩ := List.exists_cons_of_ne_nil hne
    exact ⟨rfl, rfl⟩
  · intro servers n K probe hne hnm
    obtain ⟨hd, tl, rfl⟩ := List.exists_cons_of_ne_nil hne
    have hfil : (hd :: tl).filter (fun s => s.ident == n) = [] := by
      rw [List.filter_eq_nil_iff]
      intro s hs
      simpa using hnm s hs
    simp only [select]
    rw [hfil]
  · intro servers K probe hne hall
    obtain ⟨hd, tl, rfl⟩ := List.exists_cons_of_ne_nil hne
    simp only [select]
    rw [pickBest_eq_none hall]
  · intro servers K probe hq
    have hne : servers ≠ [] := by
      rintro rfl
      obtain ⟨c, hc, -⟩ := hq
      simp [candidatesOf, sortByDistance] at hc
    obtain ⟨hd, tl, rfl⟩ := List.exists_cons_of_ne_nil hne
    obtain ⟨s, avg, hpick, -, -, -⟩ := pickBest_spec hq
    refine ⟨s, ?_⟩
    simp only [select]
    rw [hpick]

/-- Witness for C2 at concrete inputs exercising every error case and the
success case. -/
theorem select_error_cases_witness :
    select [] none 5 (fun _ => []) = .error .emptyServerList ∧
    (([⟨1, 5⟩] : List Server) ≠ [] ∧
      select [⟨1, 5⟩] (some .nonInt) 5 (fun _ => []) = .error .invalidServerIDType) ∧
    select [⟨1, 5⟩] (some (.intVal 2)) 5 (fun _ => []) = .error .noMatchedServers ∧
    select [⟨1, 5⟩] none 5 (fun _ => [none]) = .error .speedtestBestServerFailure ∧
    (∃ s, select [⟨1, 5⟩] none 5 (fun _ => [some 30]) = .ok s) :=
  ⟨select_error_cases.1 none 5 (fun _ => []),
   ⟨by decide,
    (select_error_cases.2.1 [⟨1, 5⟩] 5 (fun _ => []) (fun _ => []) (by decide)).1⟩,
   select_error_cases.2.2.1 [⟨1, 5⟩] 2 5 (fun _ => []) (by decide) (by decide),
   select_error_cases.2.2.2.1 [⟨1, 5⟩] 5 (fun _ => [none]) (by decide) (by decide),
   select_error_cases.2.2.2.2 [⟨1, 5⟩] 5 (fun _ => [some 30]) (by decide)⟩

/-- C3: the transfer loop of a worker stops issuing new requests at the
earliest of time budget elapsed, data budget reached, or ShutdownSignal
observed true: a state at which any of the three fires ends the loop at once,
and every state from which a request is actually started satisfies none of the
three stop conditions. -/
theorem worker_stops_at_earliest_event :
    (∀ (env : PhaseEnv) (fuel : Nat) (st : WorkerState),
      stopRequested env st = true → runWorker env fuel st = st) ∧
    (∀ (env : PhaseEnv) (fuel : Nat) (st0 s : WorkerState),
      s ∈ requestStarts env fuel st0 →
      env.shutdownSeen s.step = false ∧ s.elapsed < env.timeBudget ∧
        s.bytes < env.dataBudget) := by
  constructor
  · intro env fuel st h
    cases fuel with
    | zero => rfl
    | succ n => simp [runWorker, h]
  · intro env fuel
    induction fuel with
    | zero =>
      intro st0 s hs
      simp [requestStarts] at hs
    | succ n ih =>
      intro st0 s hs
      rw [requestStarts] at hs
      by_cases hstop : stopRequested env st0 = true
      · rw [if_pos hstop] at hs
        simp at hs
      · rw [if_neg hstop] at hs
        rcases List.mem_cons.mp hs with rfl | hmem
        · have h1 : ¬(env.shutdownSeen s.step ||
              decide (env.timeBudget ≤ s.elapsed) ||
              decide (env.dataBudget ≤ s.bytes)) = true := hstop
          simp only [Bool.or_eq_true, decide_eq_true_eq, not_or] at h1
          obtain ⟨⟨hsh, ht⟩, hb⟩ := h1
          exact ⟨Bool.not_eq_true _ ▸ by simpa using hsh, by omega, by omega⟩
        · exact ih (nextState env st0) s hmem

/-- Witness for C3: a concrete environment with no shutdown requests, budgets
10 ms and 100 bytes, requests of 7 bytes and 3 ms; the loop halts immediately
at an over-time state, and the second request of a fresh run starts strictly
inside every budget with no shutdown observed. -/
theorem worker_stops_at_earliest_event_witness :
    (stopRequested ⟨10, 100, fun _ => false, fun _ => 7, fun _ => 3⟩ ⟨0, 0, 10⟩ = true ∧
      runWorker ⟨10, 100, fun _ => false, fun _ => 7, fun _ => 3⟩ 5 ⟨0, 0, 10⟩ = ⟨0, 0, 10⟩) ∧
    ((⟨1, 7, 3⟩ : WorkerState) ∈
        requestStarts ⟨10, 100, fun _ => false, fun _ => 7, fun _ => 3⟩ 4 ⟨0, 0, 0⟩ ∧
      (⟨10, 100, fun _ => false, fun _ => 7, fun _ => 3⟩ : PhaseEnv).shutdownSeen 1 = false ∧
      3 < 10 ∧ 7 < 100) :=
  ⟨⟨by decide,
    worker_stops_at_earliest_event.1 ⟨10, 100, fun _ => false, fun _ => 7, fun _ => 3⟩ 5
      ⟨0, 0, 10⟩ (by decide)⟩,
   ⟨by decide,
    worker_stops_at_earliest_event.2 ⟨10, 100, fun _ => false, fun _ => 7, fun _ => 3⟩ 4
      ⟨0, 0, 0⟩ ⟨1, 7, 3⟩ (by decide)⟩⟩

/-- C7: SpeedCalculator.compute returns totalBytes * 8 / elapsedSeconds, where
a pool-built Measurement carries the measured elapsed wall time (end minus
start), not the configured budget; compute is deterministic and idempotent —
identical Measurements give identical bitsPerSecond. -/
theorem compute_bits_per_second :
    (∀ m : Measurement,
      SpeedCalculator.compute m = (m.totalBytes * 8 : ℚ) / m.elapsedSeconds) ∧
    (∀ (b : Nat) (t0 t1 : ℚ),
      SpeedCalculator.compute (mkMeasurement b t0 t1) = (b * 8 : ℚ) / (t1 - t0)) ∧
    (∀ m m' : Measurement, m.totalBytes = m'.totalBytes →
      m.elapsedSeconds = m'.elapsedSeconds →
      SpeedCalculator.compute m = SpeedCalculator.compute m') := by
  refine ⟨fun m => rfl, fun b t0 t1 => rfl, ?_⟩
  intro m m' h1 h2
  unfold SpeedCalculator.compute
  rw [h1, h2]

/-- Witness for C7: two structurally equal concrete Measurements of 16 bytes
over 2 seconds both compute to 64 bits per second. -/
theorem compute_bits_per_second_witness :
    SpeedCalculator.compute ⟨16, 2⟩ = (16 * 8 : ℚ) / 2 ∧
    SpeedCalculator.compute (mkMeasurement 16 1 3) = (16 * 8 : ℚ) / (3 - 1) ∧
    ((16 : Nat) = 16 ∧ (2 : ℚ) = 2 ∧
      SpeedCalculator.compute ⟨16, 2⟩ = SpeedCalculator.compute ⟨16, 2⟩) :=
  ⟨compute_bits_per_second.1 ⟨16, 2⟩,
   compute_bits_per_second.2.1 16 1 3,
   ⟨rfl, rfl, compute_bits_per_second.2.2 ⟨16, 2⟩ ⟨16, 2⟩ rfl rfl⟩⟩

/-- C8: a throughput phase invoked while no best server has been selected
fails immediately with the missing-best-server precondition error, and no
transfer is attempted: the outcome is independent of the transfer behaviour. -/
theorem phase_requires_best_server (st : EngineState)
    (transfer transfer' : Server → Nat) (h : st.best = none) :
    runPhase st transfer = .error .missingBestServer ∧
    runPhase st transfer = runPhase st transfer' := by
  unfold runPhase
  rw [h]
  exact ⟨rfl, rfl⟩

/-- Witness for C8: the engine state with no selected server rejects a phase
whose transfer would have moved a million bytes. -/
theorem phase_requires_best_server_witness :
    (⟨none⟩ : EngineState).best = none ∧
    runPhase ⟨none⟩ (fun _ => 1000000) = .error .missingBestServer ∧
    runPhase ⟨none⟩ (fun _ => 1000000) = runPhase ⟨none⟩ (fun _ => 0) :=
  ⟨rfl,
   (phase_requires_best_server ⟨none⟩ (fun _ => 1000000) (fun _ => 0) rfl).1,
   (phase_requires_best_server ⟨none⟩ (fun _ => 1000000) (fun _ => 0) rfl).2⟩
